import Mathlib

/-!
Verification of the wallhaven-bot engine (src/wallhaven-bot.py) against its
natural-language specification.

The Python source is shallowly embedded: pure computations become Lean
functions, the stateful governors (write budget, API rate limiter) become
explicit state machines driven by event traces, and the effectful pipeline
(send_wallpaper_to_group) becomes a function from an abstract per-item
environment (download result, image dimensions, hash result, dedup-store
behaviour, Telegram responses) to the list of status patches it writes.
Machine integers are modelled with Nat, and float arithmetic on file sizes
and aspect quotients with Rat; for every comparison in scope the Python
float comparison agrees with the exact rational one (all numerators and
denominators involved are small powers of two or integers below 2^24), so
the Rat model is faithful.
-/

namespace WallhavenBot

/-- Source constant MAX_REQUESTS_PER_MINUTE (wallhaven-bot.py line 45). -/
def MAX_REQUESTS_PER_MINUTE : Nat := 40

/-- Source constant MAX_WALLPAPERS_PER_PERIOD (line 86). -/
def MAX_WALLPAPERS_PER_PERIOD : Nat := 2000

/-- Source constant RATE_LIMIT_PERIOD_HOURS (line 87). -/
def RATE_LIMIT_PERIOD_HOURS : Nat := 28

/-! ## Fetch cursor (get_fetch_state / update_fetch_state, lines 880-939) -/

/-- Fetch cursor state per (category, search_term): fields round,
target_count, skip_count of the fetch_state document. -/
structure FetchState where
  round : Nat
  target_count : Nat
  skip_count : Nat
  deriving Repr, DecidableEq

/-- Default cursor returned by get_fetch_state when no document exists
(lines 889-895). -/
def default_fetch_state : FetchState :=
  { round := 1, target_count := 100, skip_count := 0 }

/-- Embedding of the cursor advance computed by update_fetch_state
(lines 906-922): next_round = round + 1, next_target = next_round * 100,
next_skip = next_target - 500 when next_target >= 800 else 0. -/
def update_fetch_state (round : Nat) : FetchState :=
  let next_round := round + 1
  let next_target := next_round * 100
  let next_skip := if next_target ≥ 800 then next_target - 500 else 0
  { round := next_round, target_count := next_target, skip_count := next_skip }

/-! ## Purity and the derived safe flag (fetch_wallpapers_for_term, lines 1079-1107) -/

/-- Embedding of the safe-flag derivation at line 1091:
is_sfw = (purity == "sfw"). -/
def is_sfw (purity : String) : Bool := purity == "sfw"

/-- Default purity used by wallpaper.get("purity", "sfw") at line 1082. -/
def purity_default : String := "sfw"

/-- The specification names the purity labels {safe, sketchy}; this is the
abstract label set of the spec data model (spec section 3). -/
inductive PurityLabel where
  | safe
  | sketchy
  deriving Repr, DecidableEq

/-- The concrete string the source search API uses for each spec-level
purity label: the API encodes the safe label as "sfw" and the sketchy
label as "sketchy" (explicit content is excluded by the fixed purity
filter "110" at line 1033 and never occurs). -/
def PurityLabel.apiString : PurityLabel → String
  | .safe => "sfw"
  | .sketchy => "sketchy"

/-- Modelled from the spec glossary: the safe flag is true iff the purity
label equals safe. This is the spec-side definition compared against the
source-side is_sfw. -/
def safeFlagSpec : PurityLabel → Bool
  | .safe => true
  | .sketchy => false

/-! ## Dimension validation (validate_image_dimensions, lines 1352-1374) -/

/-- Embedding of validate_image_dimensions for an image that PIL opened
successfully with size (width, height). Mirrors the source check order:
first width + height > 10000, then width < 1 or height < 1, then the
aspect quotient max/min > 20. Python float division is modelled with Rat
(exact for these integer ranges). -/
def validate_image_dimensions (width height : Nat) : Bool :=
  if width + height > 10000 then false
  else if width < 1 ∨ height < 1 then false
  else
    -- aspect quotient computed at line 1367
    if ((max width height : ℚ) / (min width height : ℚ)) > 20 then false
    else true

/-- Instrumented variant of validate_image_dimensions whose division step
is guarded: it returns none exactly when the division at line 1367 would
have a zero denominator (the branch where Python would raise
ZeroDivisionError), and some of the computed boolean otherwise. Control
flow is otherwise identical to validate_image_dimensions. -/
def validate_image_dimensions_checked (width height : Nat) : Option Bool :=
  if width + height > 10000 then some false
  else if width < 1 ∨ height < 1 then some false
  else if (min width height : ℚ) = 0 then none
  else
    if ((max width height : ℚ) / (min width height : ℚ)) > 20 then some false
    else some true

/-! ## Thumbnail generation (_create_thumbnail_sync, lines 1399-1426, and the
thumbnail step of send_wallpaper_to_group, lines 1762-1781) -/

/-- Embedding of the quality loop of _create_thumbnail_sync (lines
1417-1423). sizeKBAt q abstracts the size in KiB of the file produced by
img.save at quality q (a deterministic function of the already-resized
image). Returns the list of qualities at which the image was saved, in
order: starting at 85, while quality >= 20, save, stop if the size is at
most max_size_kb, else decrement quality by 10. -/
def save_quality_attempts (sizeKBAt : Nat → ℚ) (max_size_kb : ℚ) (quality : Nat) :
    List Nat :=
  if h : 20 ≤ quality then
    if sizeKBAt quality ≤ max_size_kb then [quality]
    else quality :: save_quality_attempts sizeKBAt max_size_kb (quality - 10)
  else []
  termination_by quality
  decreasing_by omega

/-- The qualities the loop visits before its counter passes below the 20
floor: 85, 75, 65, 55, 45, 35, 25 (the decrement sequence from 85 never
takes the value 20 itself; after 25 the counter becomes 15 and the loop
exits). -/
def quality_ladder : List Nat := [85, 75, 65, 55, 45, 35, 25]

/-- Spec-side helper: the prefix of a list up to and including the first
element satisfying p (the whole list when no element satisfies p). -/
def takeThrough (p : Nat → Bool) : List Nat → List Nat
  | [] => []
  | a :: as => if p a then [a] else a :: takeThrough p as

/-- Embedding of the thumbnail decision in send_wallpaper_to_group (lines
1762-1778). fileSizeBytes is os.path.getsize(path); genSizeMB budget
abstracts generate_thumbnail called with max_size_kb = budget, giving the
resulting thumbnail size in MiB, or none when generation failed. Returns
the list of budgets (in KiB) passed to generate_thumbnail, in order. -/
def thumbnail_budget_calls (fileSizeBytes : Nat) (genSizeMB : ℚ → Option ℚ) :
    List ℚ :=
  -- file_size_mb = os.path.getsize(path) / (1024 * 1024), line 1762
  let file_size_mb : ℚ := (fileSizeBytes : ℚ) / (1024 * 1024)
  if file_size_mb > 9 then
    match genSizeMB 150 with
    | none => [150]
    | some thumb_size_mb =>
        -- thumb_size_mb > 1.0 check at line 1774 triggers exactly one retry
        if thumb_size_mb > 1 then [150, 100] else [150]
  else []

/-! ## Duplicate-hash check (check_duplicate_hashes, lines 1271-1319) -/

/-- Outcome of one Firestore dedup query attempt at line 1289: the query
streams a document with the matching wallpaper_id, streams nothing, raises
a quota-style ResourceExhausted/RetryError, raises a non-quota
ResourceExhausted/RetryError (re-raised by the source), or raises some
other exception. -/
inductive StoreAttempt where
  | found (wallpaper_id : String)
  | notFound
  | quotaError
  | nonQuotaError
  | otherException
  deriving Repr, DecidableEq

/-- Verdict of check_duplicate_hashes: the returned pair collapses to
duplicate (with the match type and matching id), proceed, or a re-raised
exception propagating to the caller. -/
inductive DedupVerdict where
  | duplicate (typ : String) (wallpaper_id : String)
  | proceed
  | raised
  deriving Repr, DecidableEq

/-- Observable outcome of check_duplicate_hashes: its verdict, the
(sha256, wallpaper_id) pairs inserted into the hash cache on the way, and
the number of Firestore dedup queries issued. -/
structure DedupOutcome where
  verdict : DedupVerdict
  cacheInserts : List (String × String)
  storeQueries : Nat
  deriving Repr, DecidableEq

/-- Embedding of the retry loop of check_duplicate_hashes (lines
1284-1319): for attempt in range(3), run the query; on a match, insert
into the hash cache and return duplicate; on an empty result return
proceed; on a quota error retry unless this was the last attempt, in which
case return proceed; on a non-quota ResourceExhausted/RetryError re-raise;
on any other exception return proceed. -/
def dedup_store_loop (sha256 : String) (att : Nat → StoreAttempt) (attempt : Nat) :
    DedupOutcome :=
  if _h : attempt < 3 then
    match att attempt with
    | .found wallpaper_id =>
        { verdict := .duplicate "SHA256_match" wallpaper_id
          cacheInserts := [(sha256, wallpaper_id)]
          storeQueries := 1 }
    | .notFound => { verdict := .proceed, cacheInserts := [], storeQueries := 1 }
    | .quotaError =>
        if attempt < 3 - 1 then
          let rest := dedup_store_loop sha256 att (attempt + 1)
          { rest with storeQueries := rest.storeQueries + 1 }
        else { verdict := .proceed, cacheInserts := [], storeQueries := 1 }
    | .nonQuotaError => { verdict := .raised, cacheInserts := [], storeQueries := 1 }
    | .otherException => { verdict := .proceed, cacheInserts := [], storeQueries := 1 }
  else
    -- line 1319: fall through after the loop (unreachable: the quota branch
    -- of the last attempt already returned)
    { verdict := .proceed, cacheInserts := [], storeQueries := 0 }
  termination_by 3 - attempt
  decreasing_by omega

/-- Embedding of check_duplicate_hashes (lines 1271-1319): the disk hash
cache is consulted first (check_cache_db at line 1273); a cache hit
returns duplicate with type SHA256_match_cached without touching the
store; otherwise the Firestore retry loop runs. cacheLookup is the result
of check_cache_db sha256. -/
def check_duplicate_hashes (sha256 : String) (cacheLookup : Option String)
    (att : Nat → StoreAttempt) : DedupOutcome :=
  match cacheLookup with
  | some cached_wallpaper_id =>
      { verdict := .duplicate "SHA256_match_cached" cached_wallpaper_id
        cacheInserts := []
        storeQueries := 0 }
  | none => dedup_store_loop sha256 att 0

/-! ## Status writes (update_wallpaper_status, lines 1540-1595, the
fetcher insert at lines 1094-1107, and send_wallpaper_to_group,
lines 1700-1891) -/

/-- The update payload built by update_wallpaper_status (lines 1547-1552):
the status string always, and the sha256 field only when the sha256
argument is truthy (Python: if sha256; None and the empty string are
falsy). reason records the "reason" entry of the reasons/tg_response blob
when one is passed. The retry loop around the write and the tg_response
merging do not change the payload and are not modelled; on persistent
quota failure the source writes nothing at all. -/
structure StatusPatch where
  status : String
  sha256 : Option String
  reason : Option String
  deriving Repr, DecidableEq

/-- Embedding of the payload construction of update_wallpaper_status. -/
def update_wallpaper_status (status : String) (sha256 : Option String)
    (reason : Option String) : StatusPatch :=
  { status := status
    sha256 := match sha256 with
      | some s => if s = "" then none else some s
      | none => none
    reason := reason }

/-- The document the Fetcher inserts for a new wallpaper (lines 1094-1107),
restricted to the fields the claims mention. -/
structure WallpaperDoc where
  purity : String
  sfw : Bool
  status : String
  sha256 : Option String
  deriving Repr, DecidableEq

/-- Embedding of the document built at lines 1094-1107: status
"link_added", sha256 None, sfw derived by is_sfw. -/
def build_wallpaper_document (purity : String) : WallpaperDoc :=
  { purity := purity
    sfw := is_sfw purity
    status := "link_added"
    sha256 := none }

/-- Abstract environment for one sampled wallpaper inside the per-item
loop of send_wallpaper_to_group (lines 1725-1806): whether download_image
returned a path, the image dimensions PIL reports, the file size, the
result of calculate_hashes (none models a None return), the result of
check_cache_db for that hash, and the Firestore dedup attempt outcomes. -/
structure ItemEnv where
  downloadOk : Bool
  width : Nat
  height : Nat
  fileSizeBytes : Nat
  hashResult : Option String
  cacheLookup : Option String
  storeAtt : Nat → StoreAttempt

/-- Result of the per-item phase for one wallpaper: a status patch was
written and the loop continued, the item was accumulated into the batch
with its sha256, or check_duplicate_hashes re-raised (aborting the whole
invocation, since the call at line 1791 is not wrapped in a handler). -/
inductive ItemStep where
  | wrote (patch : StatusPatch)
  | batched (sha256 : String)
  | raisedOut

/-- Embedding of the per-item phase of send_wallpaper_to_group (lines
1745-1806): download failure writes failed/"Download failed"; a dimension
violation writes failed/"Invalid dimensions for Telegram"; the thumbnail
step (lines 1762-1781, modelled by thumbnail_budget_calls) writes no
status; a falsy hash writes failed/"Hashing failed"; a dedup duplicate
writes skipped carrying the sha256; a dedup proceed accumulates the item
into the batch. -/
def processItem (env : ItemEnv) : ItemStep :=
  if ¬ env.downloadOk then
    .wrote (update_wallpaper_status "failed" none (some "Download failed"))
  else if ¬ validate_image_dimensions env.width env.height then
    .wrote (update_wallpaper_status "failed" none (some "Invalid dimensions for Telegram"))
  else
    match env.hashResult with
    | none => .wrote (update_wallpaper_status "failed" none (some "Hashing failed"))
    | some sha256 =>
        -- Python: if not sha256 (line 1784); the empty string is falsy
        if sha256 = "" then
          .wrote (update_wallpaper_status "failed" none (some "Hashing failed"))
        else
          match (check_duplicate_hashes sha256 env.cacheLookup env.storeAtt).verdict with
          | .duplicate _ _ =>
              .wrote (update_wallpaper_status "skipped" (some sha256) (some "Duplicate"))
          | .proceed => .batched sha256
          | .raised => .raisedOut

/-- Runs the per-item phase over the sampled wallpapers in order,
returning the patches written, the accumulated batch of sha256 values,
and whether the loop aborted on a re-raised dedup exception (in which
case the remaining items are not processed and no send phase runs). -/
def processItems : List ItemEnv → List StatusPatch × List String × Bool
  | [] => ([], [], false)
  | env :: rest =>
      match processItem env with
      | .wrote p =>
          let (ps, batch, aborted) := processItems rest
          (p :: ps, batch, aborted)
      | .batched sha256 =>
          let (ps, batch, aborted) := processItems rest
          (ps, sha256 :: batch, aborted)
      | .raisedOut => ([], [], true)

/-- Embedding of the send-and-persist phase (lines 1814-1879) for the
accumulated batch: if the preview album send fails (or any Telegram step
raises), every batch item is written failed with reason "Telegram upload
failed" (lines 1875-1879); otherwise item i is written posted with its
sha256 when both its preview and HD message ids are truthy, and failed
with its sha256 otherwise (lines 1865-1873). previewSuccess and hdSuccess
give the per-index truthiness of the message ids. -/
def persist_outcomes (previewSuccess hdSuccess : Nat → Bool) :
    Nat → List String → List StatusPatch
  | _, [] => []
  | i, sha256 :: rest =>
      (if previewSuccess i && hdSuccess i then
        update_wallpaper_status "posted" (some sha256) none
      else
        update_wallpaper_status "failed" (some sha256)
          (some (if previewSuccess i then "HD upload failed" else "preview upload failed"))) ::
      persist_outcomes previewSuccess hdSuccess (i + 1) rest

/-- The two outcome-persisting paths of the send phase: on a successful
preview album, item i (enumerate order) is persisted by the
posted/failed decision of lines 1865-1873; on a failed preview album (or
any raised Telegram exception) every item is written failed with reason
"Telegram upload failed" (lines 1875-1879). -/
def postPhase (batch : List String) (previewOk : Bool)
    (previewSuccess hdSuccess : Nat → Bool) : List StatusPatch :=
  if previewOk then
    persist_outcomes previewSuccess hdSuccess 0 batch
  else
    batch.map fun sha256 =>
      update_wallpaper_status "failed" (some sha256) (some "Telegram upload failed")

/-- Embedding of one send_wallpaper_to_group invocation (lines 1700-1891)
as the list of status patches it writes, in order: the per-item phase
followed, when the loop did not abort and the batch is nonempty, by the
send-and-persist phase. An invocation entered after shutdown, or whose
sample is empty, writes nothing (covered by items = []). -/
def send_wallpaper_to_group (items : List ItemEnv) (previewOk : Bool)
    (previewSuccess hdSuccess : Nat → Bool) : List StatusPatch :=
  let (patches, batch, aborted) := processItems items
  if aborted then patches
  else if batch.isEmpty then patches
  else patches ++ postPhase batch previewOk previewSuccess hdSuccess

/-! ## Write budget (check_rate_limit, lines 661-687, and
increment_wallpaper_count, lines 689-708) -/

/-- The global rate_limit_state dict (lines 88-92). Times are integer
seconds since epoch. -/
structure RateLimitState where
  period_start : Nat
  wallpapers_added : Nat
  is_paused : Bool
  deriving Repr, DecidableEq

/-- Embedding of check_rate_limit (lines 661-687) at current time now:
if the period expired, reset period_start and the counter and allow;
if the counter reached MAX_WALLPAPERS_PER_PERIOD, set is_paused and deny;
otherwise allow. Returns the verdict and the updated state. -/
def check_rate_limit (now : Nat) (s : RateLimitState) : Bool × RateLimitState :=
  let period_duration_seconds := RATE_LIMIT_PERIOD_HOURS * 3600
  if now - s.period_start ≥ period_duration_seconds then
    (true, { period_start := now, wallpapers_added := 0, is_paused := false })
  else if s.wallpapers_added ≥ MAX_WALLPAPERS_PER_PERIOD then
    (false, { s with is_paused := true })
  else
    (true, s)

/-- Embedding of increment_wallpaper_count (lines 689-708): increment the
counter (the persistence call and logging have no further state effect). -/
def increment_wallpaper_count (s : RateLimitState) : RateLimitState :=
  { s with wallpapers_added := s.wallpapers_added + 1 }

/-- One gated insert attempt of the Fetcher per-candidate loop (lines
1070-1136): at time now, check_rate_limit gates the candidate; a denied
check inserts nothing; an allowed check inserts exactly when the candidate
is new and the store write succeeds (isNew), and every insert is followed
by increment_wallpaper_count. Returns the new state, whether an insert
happened, and whether this check reset the period. -/
def budget_step (now : Nat) (isNew : Bool) (s : RateLimitState) :
    RateLimitState × Bool × Bool :=
  let reset := now - s.period_start ≥ RATE_LIMIT_PERIOD_HOURS * 3600
  let (allowed, s1) := check_rate_limit now s
  if allowed && isNew then (increment_wallpaper_count s1, true, reset)
  else (s1, false, reset)

/-- A trace of gated insert attempts: each event is (time, isNew). Returns
the final state, the times of the inserts performed, and the per-event log
of (inserted, reset) pairs. -/
def budget_run : List (Nat × Bool) → RateLimitState →
    RateLimitState × List Nat × List (Bool × Bool)
  | [], s => (s, [], [])
  | (now, isNew) :: rest, s =>
      let (s1, inserted, reset) := budget_step now isNew s
      let (sf, times, log) := budget_run rest s1
      (sf, (if inserted then [now] else []) ++ times, (inserted, reset) :: log)

/-- Number of inserts in each period segment of a budget log: segments are
delimited by the period resets, and curr is the count already performed in
the segment in progress when the trace starts. -/
def segment_counts : List (Bool × Bool) → Nat → List Nat
  | [], curr => [curr]
  | (inserted, reset) :: rest, curr =>
      if reset then curr :: segment_counts rest (if inserted then 1 else 0)
      else segment_counts rest (curr + (if inserted then 1 else 0))

/-- Inserts whose time lies in the half-open window [t0, t0 + len). -/
def inserts_in_window (t0 len : Nat) (times : List Nat) : Nat :=
  (times.filter fun t => decide (t0 ≤ t ∧ t < t0 + len)).length

/-! ## API rate limiter (enforce_rate_limit, lines 717-742) -/

/-- State of the sequential model of enforce_rate_limit: the current time
(the point the cooperative execution has reached), the global
api_call_times list, and the full history of recorded call timestamps.
Times are rationals (Python time.time() floats). -/
structure LimiterState where
  clock : ℚ
  api_call_times : List ℚ
  recorded : List ℚ

/-- Initial limiter state: api_call_times = [] (line 46), clock 0. -/
def limiter_init : LimiterState :=
  { clock := 0, api_call_times := [], recorded := [] }

/-- The wait computed under the first lock (lines 722-728): zero unless
the pruned 60-second window already holds MAX_REQUESTS_PER_MINUTE
timestamps, in which case it is 60 - (now - oldest_call) + 2 relative to
the oldest timestamp in the window. -/
def limiter_wait_time (now : ℚ) (pruned : List ℚ) : ℚ :=
  if MAX_REQUESTS_PER_MINUTE ≤ pruned.length then
    match pruned.head? with
    | some oldest_call => 60 - (now - oldest_call) + 2
    | none => 0
  else 0

/-- Embedding of one enforce_rate_limit call (lines 717-742), entered gap
seconds after the previous call completed, in the sequential model where
each call runs to completion before the next begins. Under the first lock
the list is pruned to the last 60 seconds and the wait is computed. The
sleep happens outside the lock; if shutdown is observed during a positive
wait the call returns without recording (shutdownDuringWait). Otherwise
the call records its timestamp only after the wait, under the second
lock. -/
def enforce_rate_limit_step (gap : ℚ) (shutdownDuringWait : Bool)
    (s : LimiterState) : LimiterState :=
  let now := s.clock + gap
  let pruned := s.api_call_times.filter fun t => decide (now - t < 60)
  let wait_time := limiter_wait_time now pruned
  if 0 < wait_time ∧ shutdownDuringWait then
    { clock := now, api_call_times := pruned, recorded := s.recorded }
  else
    let record_time := now + wait_time
    { clock := record_time
      api_call_times := pruned ++ [record_time]
      recorded := s.recorded ++ [record_time] }

/-- Runs a sequence of enforce_rate_limit calls, each described by the gap
since the previous call completed and whether shutdown was requested
during its wait. -/
def limiter_run : List (ℚ × Bool) → LimiterState → LimiterState
  | [], s => s
  | (gap, sd) :: rest, s => limiter_run rest (enforce_rate_limit_step gap sd s)

/-- Recorded API calls lying in the rolling window (τ - 60, τ]. -/
def calls_in_window (τ : ℚ) (times : List ℚ) : Nat :=
  (times.filter fun u => decide (τ - 60 < u ∧ u ≤ τ)).length

/-! ## Shutdown sequence (handle_shutdown, lines 710-715, and the tail of
main, lines 2035-2047) -/

/-- The externally observable steps of the shutdown path. -/
inductive ShutdownEvent where
  | setShutdownFlag
  | closeHashCacheDb
  | closeMetadataCacheDb
  | awaitActiveTasks
  | stopScheduler
  deriving Repr, DecidableEq

/-- Embedding of handle_shutdown (lines 710-715), the SIGINT/SIGTERM
handler: it sets shutdown_requested and then immediately calls
close_cache_db() and close_metadata_cache_db(). -/
def handle_shutdown_events : List ShutdownEvent :=
  [.setShutdownFlag, .closeHashCacheDb, .closeMetadataCacheDb]

/-- Embedding of the code after the main poll loop exits (lines
2038-2047): gather the ACTIVE_TASKS, shut the scheduler down, and call
close_cache_db() (only the hash cache) once more. -/
def main_shutdown_events : List ShutdownEvent :=
  [.awaitActiveTasks, .stopScheduler, .closeHashCacheDb]

/-- The full ordered event sequence on SIGINT/SIGTERM: the signal handler
runs first (synchronously in the event loop), then the main loop observes
the flag and runs its tail. -/
def shutdown_sequence : List ShutdownEvent :=
  handle_shutdown_events ++ main_shutdown_events

/-- Whether an event closes one of the two cache databases. -/
def isCacheClose : ShutdownEvent → Bool
  | .closeHashCacheDb => true
  | .closeMetadataCacheDb => true
  | _ => false

/-- The ordering property claimed of the shutdown path: every
cache-database close occurs only after the await of the active-task set
(no close precedes any point at which in-flight tasks may still run). -/
def closesOnlyAfterAwait (tr : List ShutdownEvent) : Prop :=
  ∀ i j : Fin tr.length,
    isCacheClose (tr.get i) = true → tr.get j = .awaitActiveTasks → j < i

instance (tr : List ShutdownEvent) : Decidable (closesOnlyAfterAwait tr) := by
  unfold closesOnlyAfterAwait
  infer_instance

/-! ## Predicates used by the theorems -/

/-- The status value set of spec property P1. -/
def allowed_statuses : List String := ["link_added", "posted", "skipped", "failed"]

/-- Property P1 of a written status patch: the status is one of the four
allowed values, and a posted patch carries a non-null sha256. -/
def GoodPatch (p : StatusPatch) : Prop :=
  p.status ∈ allowed_statuses ∧ (p.status = "posted" → p.sha256 ≠ none)

/-- Invariant of the sequential rate-limiter model: the recent (last 60 s
relative to the model clock) portions of the full recorded history and of
the in-memory api_call_times list agree, the recent recorded count is
within the limit, and every rolling 60-second window of the recorded
history is within the limit. -/
structure LimiterInv (s : LimiterState) : Prop where
  recent_eq : s.recorded.filter (fun u => decide (s.clock - 60 < u)) =
      s.api_call_times.filter (fun u => decide (s.clock - 60 < u))
  recent_le : (s.recorded.filter (fun u => decide (s.clock - 60 < u))).length ≤
      MAX_REQUESTS_PER_MINUTE
  window_le : ∀ τ : ℚ, calls_in_window τ s.recorded ≤ MAX_REQUESTS_PER_MINUTE

/-! # Theorems -/

/-- C4: advancing a fetch cursor is deterministic and, for every starting
round r >= 1, yields next_round = r + 1, next_target = (r+1)*100 and
next_skip = (r+1)*100 - 500 when (r+1)*100 >= 800 and 0 otherwise; in
particular resulting rounds up to 7 have skip 0, resulting round 8 has
target 800 and skip 300, and resulting round 10 has target 1000 and
skip 500. -/
theorem fetch_cursor_advance_correct (r : Nat) (_hr : 1 ≤ r) :
    update_fetch_state r =
      { round := r + 1
        target_count := (r + 1) * 100
        skip_count := if (r + 1) * 100 ≥ 800 then (r + 1) * 100 - 500 else 0 } ∧
    (∀ r' : Nat, r' + 1 ≤ 7 → (update_fetch_state r').skip_count = 0) ∧
    update_fetch_state 7 = { round := 8, target_count := 800, skip_count := 300 } ∧
    update_fetch_state 9 = { round := 10, target_count := 1000, skip_count := 500 } := by
  refine ⟨rfl, ?_, by decide, by decide⟩
  intro r' h
  simp only [update_fetch_state]
  have : ¬ (r' + 1) * 100 ≥ 800 := by omega
  simp [this]

/-- Witness for C4 at the concrete starting round 1. -/
theorem fetch_cursor_advance_correct_witness :
    update_fetch_state 1 =
      { round := 1 + 1
        target_count := (1 + 1) * 100
        skip_count := if (1 + 1) * 100 ≥ 800 then (1 + 1) * 100 - 500 else 0 } :=
  (fetch_cursor_advance_correct 1 (by decide)).1

/-- C5: the safe flag the Fetcher stores (sfw field, derived by
is_sfw = (purity == "sfw") at line 1091) is true exactly when the purity
label is the safe one of the spec label set {safe, sketchy}, whose API
encoding is "sfw"; the sketchy label maps to false. The document built
for a candidate carries exactly this derived flag. -/
theorem safe_flag_iff_purity_safe :
    (∀ l : PurityLabel, is_sfw l.apiString = safeFlagSpec l) ∧
    (∀ l : PurityLabel, is_sfw l.apiString = true ↔ l = PurityLabel.safe) ∧
    (∀ purity : String, (build_wallpaper_document purity).sfw = is_sfw purity) := by
  refine ⟨?_, ?_, fun _ => rfl⟩
  · intro l; cases l <;> rfl
  · intro l; cases l <;> simp [PurityLabel.apiString, is_sfw]

/-- C10: dimension validation is total and the zero-denominator branch of
the aspect-quotient division is unreachable: the guarded variant (which
returns none exactly where Python would divide by zero) agrees with the
plain function on every input, returning some boolean. -/
theorem validate_dimensions_no_div_by_zero (width height : Nat) :
    validate_image_dimensions_checked width height =
      some (validate_image_dimensions width height) := by
  by_cases h1 : width + height > 10000
  · simp [validate_image_dimensions_checked, validate_image_dimensions, h1]
  · by_cases h2 : width < 1 ∨ height < 1
    · have h2' : width = 0 ∨ height = 0 := by omega
      simp [validate_image_dimensions_checked, validate_image_dimensions, h1, h2, h2']
    · have hmin : ¬ ((min width height : ℚ) = 0) := by
        have h3 : 1 ≤ min width height := by omega
        have : (1 : ℚ) ≤ (min width height : ℚ) := by exact_mod_cast h3
        intro hc
        rw [hc] at this
        norm_num at this
      simp only [validate_image_dimensions_checked, validate_image_dimensions,
        h1, h2, hmin, if_false, if_neg]
      split <;> rfl

/-- C3 counterexample: the claimed ordering (no cache-database close
before every in-flight task has completed) is false for the actual
shutdown event sequence: handle_shutdown closes both cache databases
immediately in the signal handler, before the main loop awaits the
active-task set. -/
theorem shutdown_close_not_after_await :
    ¬ closesOnlyAfterAwait shutdown_sequence := by
  decide

/-- C3 amended: on SIGINT/SIGTERM the handler sets the shutdown flag and
immediately closes the hash cache and metadata cache databases; only then
does the main loop await the active-task set, stop the scheduler, and
close the hash cache database a second time. So both cache-database
closes performed by the handler precede the await of in-flight tasks. -/
theorem shutdown_sequence_actual_order :
    shutdown_sequence =
      [ShutdownEvent.setShutdownFlag, ShutdownEvent.closeHashCacheDb,
       ShutdownEvent.closeMetadataCacheDb, ShutdownEvent.awaitActiveTasks,
       ShutdownEvent.stopScheduler, ShutdownEvent.closeHashCacheDb] ∧
    shutdown_sequence.indexOf ShutdownEvent.setShutdownFlag = 0 ∧
    shutdown_sequence.indexOf ShutdownEvent.closeHashCacheDb = 1 ∧
    shutdown_sequence.indexOf ShutdownEvent.closeMetadataCacheDb = 2 ∧
    shutdown_sequence.indexOf ShutdownEvent.awaitActiveTasks = 3 ∧
    shutdown_sequence.indexOf ShutdownEvent.stopScheduler = 4 := by
  decide

/-- C8: dimension validation accepts exactly when width >= 1, height >= 1,
width + height <= 10000 and the aspect quotient max/min is at most 20; an
image with width + height = 10000 is accepted (e.g. 5000 x 5000), every
image with width + height = 10001 is rejected, and in the posting pipeline
a downloaded item whose dimensions fail validation is written failed with
reason "Invalid dimensions for Telegram". -/
theorem validate_dimensions_characterization :
    (∀ width height : Nat,
      validate_image_dimensions width height = true ↔
        (1 ≤ width ∧ 1 ≤ height ∧ width + height ≤ 10000 ∧
          ((max width height : ℚ) / (min width height : ℚ)) ≤ 20)) ∧
    validate_image_dimensions 5000 5000 = true ∧
    (∀ width height : Nat, width + height = 10001 →
      validate_image_dimensions width height = false) ∧
    (∀ env : ItemEnv, env.downloadOk = true →
      validate_image_dimensions env.width env.height = false →
      processItem env =
        ItemStep.wrote (update_wallpaper_status "failed" none
          (some "Invalid dimensions for Telegram"))) := by
  refine ⟨?_, by norm_num [validate_image_dimensions], ?_, ?_⟩
  · intro width height
    unfold validate_image_dimensions
    split_ifs with h1 h2 h3
    · simp only [Bool.false_eq_true, false_iff]
      rintro ⟨-, -, hsum, -⟩
      omega
    · simp only [Bool.false_eq_true, false_iff]
      rintro ⟨hw, hh, -, -⟩
      omega
    · simp only [Bool.false_eq_true, false_iff]
      rintro ⟨-, -, -, hq⟩
      exact absurd h3 (not_lt.mpr hq)
    · exact ⟨fun _ => ⟨by omega, by omega, by omega, le_of_not_lt h3⟩, fun _ => rfl⟩
  · intro width height hsum
    unfold validate_image_dimensions
    have h1 : width + height > 10000 := by omega
    simp [h1]
  · intro env hdl hval
    unfold processItem
    simp [hdl, hval]

/-- Witness for C8 at concrete inputs: a 6000 x 4001 image (sum 10001) is
rejected, and the characterizing equivalence holds at 5000 x 5000. -/
theorem validate_dimensions_characterization_witness :
    validate_image_dimensions 6000 4001 = false ∧
    validate_image_dimensions 5000 5000 = true :=
  ⟨validate_dimensions_characterization.2.2.1 6000 4001 (by decide),
   validate_dimensions_characterization.2.1⟩

/-- Unfolding lemma for one iteration of the thumbnail quality loop when
the quality is at least the 20 floor. -/
theorem save_quality_attempts_step (sizeKBAt : Nat → ℚ) (max_size_kb : ℚ)
    (q q' : Nat) (h : 20 ≤ q) (hq : q - 10 = q') :
    save_quality_attempts sizeKBAt max_size_kb q =
      if sizeKBAt q ≤ max_size_kb then [q]
      else q :: save_quality_attempts sizeKBAt max_size_kb q' := by
  subst hq
  rw [save_quality_attempts]
  simp [h]

/-- Unfolding lemma for the thumbnail quality loop below the 20 floor. -/
theorem save_quality_attempts_stop (sizeKBAt : Nat → ℚ) (max_size_kb : ℚ)
    (q : Nat) (h : q < 20) :
    save_quality_attempts sizeKBAt max_size_kb q = [] := by
  rw [save_quality_attempts]
  simp [Nat.not_le.mpr h]

/-- C9: the thumbnail quality loop saves at qualities 85, 75, ... in steps
of 10, stopping at the first quality whose saved size is within the
budget, and otherwise stopping once the quality counter passes the 20
floor (qualities 85 down to 25 are the ones attempted; the decrement
sequence from 85 skips 20 itself). In the posting pipeline a thumbnail is
attempted exactly for files strictly larger than 9.0 MiB (a file of
exactly 9 * 1024 * 1024 bytes gets none, one byte more gets one), the
first generation uses the 150 KiB budget, and a single retry with the
100 KiB budget happens exactly when the first generated thumbnail exceeds
1.0 MiB. -/
theorem thumbnail_generation_behaviour :
    (∀ (sizeKBAt : Nat → ℚ) (max_size_kb : ℚ),
      save_quality_attempts sizeKBAt max_size_kb 85 =
        takeThrough (fun q => decide (sizeKBAt q ≤ max_size_kb)) quality_ladder) ∧
    (∀ (fileSizeBytes : Nat) (genSizeMB : ℚ → Option ℚ),
      thumbnail_budget_calls fileSizeBytes genSizeMB ≠ [] ↔
        (fileSizeBytes : ℚ) / (1024 * 1024) > 9) ∧
    (∀ genSizeMB : ℚ → Option ℚ,
      thumbnail_budget_calls (9 * 1024 * 1024) genSizeMB = []) ∧
    (∀ genSizeMB : ℚ → Option ℚ,
      thumbnail_budget_calls (9 * 1024 * 1024 + 1) genSizeMB ≠ []) ∧
    (∀ (fileSizeBytes : Nat) (genSizeMB : ℚ → Option ℚ) (thumb_size_mb : ℚ),
      (fileSizeBytes : ℚ) / (1024 * 1024) > 9 →
      genSizeMB 150 = some thumb_size_mb →
      thumbnail_budget_calls fileSizeBytes genSizeMB =
        if thumb_size_mb > 1 then [150, 100] else [150]) := by
  refine ⟨?_, ?_, ?_, ?_, ?_⟩
  · intro sizeKBAt max_size_kb
    rw [save_quality_attempts_step sizeKBAt max_size_kb 85 75 (by norm_num) (by norm_num),
        save_quality_attempts_step sizeKBAt max_size_kb 75 65 (by norm_num) (by norm_num),
        save_quality_attempts_step sizeKBAt max_size_kb 65 55 (by norm_num) (by norm_num),
        save_quality_attempts_step sizeKBAt max_size_kb 55 45 (by norm_num) (by norm_num),
        save_quality_attempts_step sizeKBAt max_size_kb 45 35 (by norm_num) (by norm_num),
        save_quality_attempts_step sizeKBAt max_size_kb 35 25 (by norm_num) (by norm_num),
        save_quality_attempts_step sizeKBAt max_size_kb 25 15 (by norm_num) (by norm_num),
        save_quality_attempts_stop sizeKBAt max_size_kb 15 (by norm_num)]
    simp only [quality_ladder, takeThrough, decide_eq_true_eq]
  · intro fileSizeBytes genSizeMB
    unfold thumbnail_budget_calls
    dsimp only
    split_ifs with h
    · refine ⟨fun _ => h, fun _ => ?_⟩
      cases hg : genSizeMB 150 with
      | none => simp [hg]
      | some s =>
          dsimp only
          split_ifs <;> simp
    · simp [h]
  · intro genSizeMB
    unfold thumbnail_budget_calls
    norm_num
  · intro genSizeMB
    unfold thumbnail_budget_calls
    dsimp only
    have h : ((9 * 1024 * 1024 + 1 : Nat) : ℚ) / (1024 * 1024) > 9 := by
      norm_num
    rw [if_pos h]
    cases hg : genSizeMB 150 with
    | none => simp
    | some s =>
        dsimp only
        split_ifs <;> simp
  · intro fileSizeBytes genSizeMB thumb_size_mb h hg
    unfold thumbnail_budget_calls
    dsimp only
    rw [if_pos h, hg]

/-- Witness for C9 at concrete inputs: with a size function that never
meets the budget the attempted qualities are exactly 85 down to 25, and a
8 MiB + 1 byte file over 9 MiB with a 2 MiB first thumbnail triggers
exactly one retry at the 100 KiB budget. -/
theorem thumbnail_generation_behaviour_witness :
    save_quality_attempts (fun _ => 1000) 150 85 =
      takeThrough (fun _q => decide ((1000 : ℚ) ≤ 150)) quality_ladder ∧
    thumbnail_budget_calls (9 * 1024 * 1024 + 1) (fun _ => some 2) = [150, 100] := by
  refine ⟨thumbnail_generation_behaviour.1 (fun _ => 1000) 150, ?_⟩
  rw [thumbnail_generation_behaviour.2.2.2.2 (9 * 1024 * 1024 + 1) (fun _ => some 2) 2
      (by norm_num) rfl]
  norm_num

/-- Helper: when every Firestore dedup attempt raises a quota error, the
retry loop runs all 3 attempts and returns proceed with no cache insert. -/
theorem check_duplicate_hashes_all_quota (sha : String) (att : Nat → StoreAttempt)
    (h : ∀ i, att i = StoreAttempt.quotaError) :
    check_duplicate_hashes sha none att =
      { verdict := .proceed, cacheInserts := [], storeQueries := 3 } := by
  have h2 : dedup_store_loop sha att 2 =
      { verdict := .proceed, cacheInserts := [], storeQueries := 1 } := by
    rw [dedup_store_loop]
    simp [h 2]
  have h1 : dedup_store_loop sha att 1 =
      { verdict := .proceed, cacheInserts := [], storeQueries := 2 } := by
    rw [dedup_store_loop]
    simp [h 1, h2]
  have h0 : dedup_store_loop sha att 0 =
      { verdict := .proceed, cacheInserts := [], storeQueries := 3 } := by
    rw [dedup_store_loop]
    simp [h 0, h1]
  simpa [check_duplicate_hashes] using h0

/-- C6: if every one of the 3 dedup query attempts raises a quota error,
check_duplicate_hashes returns proceed (the hash is treated as having no
match) and nothing is inserted into the hash cache; the hash cache is
consulted before the store in every dedup check (a cache hit answers with
zero store queries); and in the posting pipeline a proceed verdict never
marks the item skipped. -/
theorem dedup_quota_fail_open :
    (∀ (sha : String) (att : Nat → StoreAttempt),
      (∀ i, att i = StoreAttempt.quotaError) →
      check_duplicate_hashes sha none att =
        { verdict := .proceed, cacheInserts := [], storeQueries := 3 }) ∧
    (∀ (sha cached_id : String) (att : Nat → StoreAttempt),
      check_duplicate_hashes sha (some cached_id) att =
        { verdict := .duplicate "SHA256_match_cached" cached_id
          cacheInserts := [], storeQueries := 0 }) ∧
    (∀ env : ItemEnv, env.cacheLookup = none →
      (∀ i, env.storeAtt i = StoreAttempt.quotaError) →
      ∀ patch : StatusPatch, processItem env = ItemStep.wrote patch →
        patch.status ≠ "skipped") := by
  refine ⟨check_duplicate_hashes_all_quota, fun _ _ _ => rfl, ?_⟩
  intro env hc hq patch hpi
  by_cases hd : env.downloadOk = true
  · by_cases hv : validate_image_dimensions env.width env.height = true
    · cases hh : env.hashResult with
      | none =>
          simp [processItem, hd, hv, hh] at hpi
          rw [← hpi]
          decide
      | some sha =>
          by_cases hs : sha = ""
          · simp [processItem, hd, hv, hh, hs] at hpi
            rw [← hpi]
            decide
          · have hverdict :
                (check_duplicate_hashes sha env.cacheLookup env.storeAtt).verdict =
                  DedupVerdict.proceed := by
              rw [hc, check_duplicate_hashes_all_quota sha env.storeAtt hq]
            simp [processItem, hd, hv, hh, hs, hverdict] at hpi
    · simp [processItem, hd, hv] at hpi
      rw [← hpi]
      decide
  · simp [processItem, hd] at hpi
    rw [← hpi]
    decide

/-- Witness for C6 at a concrete hash and an all-quota store: the check
returns proceed after 3 attempts with no cache insert. -/
theorem dedup_quota_fail_open_witness :
    check_duplicate_hashes "ff00" none (fun _ => StoreAttempt.quotaError) =
      { verdict := .proceed, cacheInserts := [], storeQueries := 3 } :=
  dedup_quota_fail_open.1 "ff00" (fun _ => StoreAttempt.quotaError) (fun _ => rfl)

/-- Helper: any patch written by the per-item phase satisfies P1. -/
theorem processItem_wrote_good (env : ItemEnv) (patch : StatusPatch)
    (h : processItem env = ItemStep.wrote patch) : GoodPatch patch := by
  by_cases hd : env.downloadOk = true
  · by_cases hv : validate_image_dimensions env.width env.height = true
    · cases hh : env.hashResult with
      | none =>
          simp [processItem, hd, hv, hh] at h
          rw [← h]
          exact ⟨by decide, fun hps => absurd hps (by decide)⟩
      | some sha =>
          by_cases hs : sha = ""
          · simp [processItem, hd, hv, hh, hs] at h
            rw [← h]
            exact ⟨by decide, fun hps => absurd hps (by decide)⟩
          · cases hverdict :
                (check_duplicate_hashes sha env.cacheLookup env.storeAtt).verdict with
            | duplicate typ wid =>
                simp [processItem, hd, hv, hh, hs, hverdict] at h
                rw [← h]
                exact ⟨(by decide : ("skipped" : String) ∈ allowed_statuses),
                  fun hps => absurd hps (by decide : ¬ (("skipped" : String) = "posted"))⟩
            | proceed => simp [processItem, hd, hv, hh, hs, hverdict] at h
            | raised => simp [processItem, hd, hv, hh, hs, hverdict] at h
    · simp [processItem, hd, hv] at h
      rw [← h]
      exact ⟨by decide, fun hps => absurd hps (by decide)⟩
  · simp [processItem, hd] at h
    rw [← h]
    exact ⟨by decide, fun hps => absurd hps (by decide)⟩

/-- Helper: a batched sha256 is nonempty (the falsy-hash write at line
1784 already filtered the empty string). -/
theorem processItem_batched_ne_empty (env : ItemEnv) (sha : String)
    (h : processItem env = ItemStep.batched sha) : sha ≠ "" := by
  by_cases hd : env.downloadOk = true
  · by_cases hv : validate_image_dimensions env.width env.height = true
    · cases hh : env.hashResult with
      | none => simp [processItem, hd, hv, hh] at h
      | some sha' =>
          by_cases hs : sha' = ""
          · simp [processItem, hd, hv, hh, hs] at h
          · cases hverdict :
                (check_duplicate_hashes sha' env.cacheLookup env.storeAtt).verdict with
            | duplicate typ wid => simp [processItem, hd, hv, hh, hs, hverdict] at h
            | proceed =>
                simp [processItem, hd, hv, hh, hs, hverdict] at h
                rw [← h]
                exact hs
            | raised => simp [processItem, hd, hv, hh, hs, hverdict] at h
    · simp [processItem, hd, hv] at h
  · simp [processItem, hd] at h

/-- Helper: every patch of the per-item phase satisfies P1, and every
batched sha256 is nonempty, over a whole item list. -/
theorem processItems_good (items : List ItemEnv) :
    (∀ p ∈ (processItems items).1, GoodPatch p) ∧
    (∀ s ∈ (processItems items).2.1, s ≠ "") := by
  induction items with
  | nil => simp [processItems]
  | cons env rest ih =>
      rcases hrest : processItems rest with ⟨ps, batch, ab⟩
      rw [hrest] at ih
      cases hstep : processItem env with
      | wrote patch =>
          simp only [processItems, hstep, hrest]
          exact ⟨fun p hp => by
              rcases List.mem_cons.mp hp with h | h
              · exact h ▸ processItem_wrote_good env patch hstep
              · exact ih.1 p h,
            ih.2⟩
      | batched sha =>
          simp only [processItems, hstep, hrest]
          exact ⟨ih.1, fun s hssa => by
              rcases List.mem_cons.mp hssa with h | h
              · exact h ▸ processItem_batched_ne_empty env sha hstep
              · exact ih.2 s h⟩
      | raisedOut =>
          simp only [processItems, hstep]
          exact ⟨fun p hp => absurd hp (List.not_mem_nil p),
            fun s hssa => absurd hssa (List.not_mem_nil s)⟩

/-- Helper: every patch of the outcome-persisting loop satisfies P1. -/
theorem persist_outcomes_good (previewSuccess hdSuccess : Nat → Bool)
    (i : Nat) (batch : List String) (hb : ∀ s ∈ batch, s ≠ "") :
    ∀ p ∈ persist_outcomes previewSuccess hdSuccess i batch, GoodPatch p := by
  induction batch generalizing i with
  | nil => simp [persist_outcomes]
  | cons sha rest ih =>
      intro p hp
      have hsha : sha ≠ "" := hb sha (List.mem_cons_self sha rest)
      rcases List.mem_cons.mp hp with h | h
      · subst h
        split_ifs with hok
        · refine ⟨(by decide : ("posted" : String) ∈ allowed_statuses), fun _ => ?_⟩
          simp [update_wallpaper_status, hsha]
        all_goals
          exact ⟨(by decide : ("failed" : String) ∈ allowed_statuses),
            fun hps => absurd hps (by decide : ¬ (("failed" : String) = "posted"))⟩
      · exact ih (i + 1) (fun s hs => hb s (List.mem_cons_of_mem sha hs)) p h

/-- Helper: every patch of the send phase satisfies P1. -/
theorem postPhase_good (batch : List String) (previewOk : Bool)
    (previewSuccess hdSuccess : Nat → Bool) (hb : ∀ s ∈ batch, s ≠ "") :
    ∀ p ∈ postPhase batch previewOk previewSuccess hdSuccess, GoodPatch p := by
  unfold postPhase
  split_ifs with hok
  · exact persist_outcomes_good previewSuccess hdSuccess 0 batch hb
  · intro p hp
    rcases List.mem_map.mp hp with ⟨sha, hsha, rfl⟩
    exact ⟨(by decide : ("failed" : String) ∈ allowed_statuses),
      fun hps => absurd hps (by decide : ¬ (("failed" : String) = "posted"))⟩

/-- C1: every status the engine writes to a wallpaper record is one of
link_added, posted, skipped, failed; the record the Fetcher inserts has
status link_added with a null sha256; and every posted write of the
posting pipeline carries a non-null sha256. -/
theorem status_writes_invariant :
    (∀ purity : String,
      (build_wallpaper_document purity).status = "link_added" ∧
      (build_wallpaper_document purity).sha256 = none ∧
      (build_wallpaper_document purity).status ∈ allowed_statuses) ∧
    (∀ (items : List ItemEnv) (previewOk : Bool) (previewSuccess hdSuccess : Nat → Bool)
      (patch : StatusPatch),
      patch ∈ send_wallpaper_to_group items previewOk previewSuccess hdSuccess →
      patch.status ∈ allowed_statuses ∧
      (patch.status = "posted" → patch.sha256 ≠ none)) := by
  refine ⟨fun _ => ⟨rfl, rfl, (by decide : ("link_added" : String) ∈ allowed_statuses)⟩, ?_⟩
  intro items previewOk previewSuccess hdSuccess patch hmem
  have hgood := processItems_good items
  rcases hrest : processItems items with ⟨ps, batch, ab⟩
  rw [hrest] at hgood
  rw [send_wallpaper_to_group, hrest] at hmem
  dsimp only at hmem
  cases ab with
  | true =>
      rw [if_pos rfl] at hmem
      exact hgood.1 patch hmem
  | false =>
      rw [if_neg (by decide)] at hmem
      by_cases hbatch : batch.isEmpty = true
      · rw [if_pos hbatch] at hmem
        exact hgood.1 patch hmem
      · rw [if_neg hbatch] at hmem
        rcases List.mem_append.mp hmem with h | h
        · exact hgood.1 patch h
        · exact postPhase_good batch previewOk previewSuccess hdSuccess hgood.2 patch h

/-- Witness for C1: the single patch written for an item whose download
failed satisfies P1. -/
theorem status_writes_invariant_witness :
    (update_wallpaper_status "failed" none (some "Download failed")).status ∈
      allowed_statuses ∧
    ((update_wallpaper_status "failed" none (some "Download failed")).status = "posted" →
      (update_wallpaper_status "failed" none (some "Download failed")).sha256 ≠ none) :=
  status_writes_invariant.2
    [{ downloadOk := false, width := 0, height := 0, fileSizeBytes := 0,
       hashResult := none, cacheLookup := none, storeAtt := fun _ => .notFound }]
    true (fun _ => true) (fun _ => true)
    (update_wallpaper_status "failed" none (some "Download failed"))
    (List.mem_singleton.mpr rfl)

/-- Helper: unfolding equation for one gated attempt at the head of a
trace. -/
theorem budget_run_cons (now : Nat) (isNew : Bool) (rest : List (Nat × Bool))
    (s : RateLimitState) :
    budget_run ((now, isNew) :: rest) s =
      ((budget_run rest (budget_step now isNew s).1).1,
       (if (budget_step now isNew s).2.1 then [now] else []) ++
         (budget_run rest (budget_step now isNew s).1).2.1,
       ((budget_step now isNew s).2.1, (budget_step now isNew s).2.2) ::
         (budget_run rest (budget_step now isNew s).1).2.2) := rfl

/-- Helper: an attempt inside a live period with spare budget inserts and
increments the counter. -/
theorem budget_step_insert (now : Nat) (s : RateLimitState)
    (h1 : now - s.period_start < RATE_LIMIT_PERIOD_HOURS * 3600)
    (h2 : s.wallpapers_added < MAX_WALLPAPERS_PER_PERIOD) :
    budget_step now true s =
      ({ s with wallpapers_added := s.wallpapers_added + 1 }, true, false) := by
  unfold budget_step check_rate_limit increment_wallpaper_count
  simp [Nat.not_le.mpr h1, Nat.not_le.mpr h2]

/-- Helper: an attempt after the period expired resets the counter and
then inserts. -/
theorem budget_step_reset_insert (now : Nat) (s : RateLimitState)
    (h1 : now - s.period_start ≥ RATE_LIMIT_PERIOD_HOURS * 3600) :
    budget_step now true s =
      ({ period_start := now, wallpapers_added := 1, is_paused := false }, true, true) := by
  unfold budget_step check_rate_limit increment_wallpaper_count
  simp [h1]

/-- Helper: n back-to-back new candidates at time t inside a live period
with enough remaining budget all insert. -/
theorem budget_run_replicate_insert (n : Nat) (t : Nat) (s : RateLimitState)
    (h2 : t - s.period_start < RATE_LIMIT_PERIOD_HOURS * 3600)
    (h3 : s.wallpapers_added + n ≤ MAX_WALLPAPERS_PER_PERIOD) :
    budget_run (List.replicate n (t, true)) s =
      ({ s with wallpapers_added := s.wallpapers_added + n },
       List.replicate n t,
       List.replicate n (true, false)) := by
  induction n generalizing s with
  | zero => simp [budget_run]
  | succ n ih =>
      have hlt : s.wallpapers_added < MAX_WALLPAPERS_PER_PERIOD := by omega
      rw [List.replicate_succ, budget_run_cons, budget_step_insert t s h2 hlt]
      rw [ih { s with wallpapers_added := s.wallpapers_added + 1 } h2 (by simp; omega)]
      refine Prod.ext ?_ (Prod.ext ?_ ?_) <;> simp [List.replicate_succ]
      omega

/-- Helper: a run over concatenated traces is the run of the first
followed by the run of the second from the intermediate state. -/
theorem budget_run_append (l1 l2 : List (Nat × Bool)) (s : RateLimitState) :
    budget_run (l1 ++ l2) s =
      ((budget_run l2 (budget_run l1 s).1).1,
       (budget_run l1 s).2.1 ++ (budget_run l2 (budget_run l1 s).1).2.1,
       (budget_run l1 s).2.2 ++ (budget_run l2 (budget_run l1 s).1).2.2) := by
  induction l1 generalizing s with
  | nil => simp [budget_run]
  | cons e rest ih =>
      obtain ⟨now, isNew⟩ := e
      rw [List.cons_append, budget_run_cons, budget_run_cons, ih]
      simp

/-- Helper: the length of a filtered replicate where the element passes. -/
theorem length_filter_replicate_pos (n : Nat) (a : Nat) (p : Nat → Bool)
    (hp : p a = true) : ((List.replicate n a).filter p).length = n := by
  induction n with
  | zero => simp
  | succ n ih => simp [List.replicate_succ, List.filter_cons, hp, ih]

/-- C2 counterexample: the write budget is a fixed-period counter, not a
sliding-window one, so a rolling window of P = 28 h can contain more than
MaxAdds = 2000 gated inserts. Concretely: with the budget state fresh at
time 0, 2000 new candidates at t = 100799 (one second before the period
expires) all pass check_rate_limit and insert; the Fetcher then sleeps one
hour, and at t = 104399 check_rate_limit resets the period, after which
2000 further candidates insert — 4000 inserts inside the rolling window
[100799, 100799 + 100800). -/
theorem budget_rolling_window_violated :
    MAX_WALLPAPERS_PER_PERIOD <
      inserts_in_window 100799 (RATE_LIMIT_PERIOD_HOURS * 3600)
        (budget_run
          (List.replicate 2000 (100799, true) ++ List.replicate 2000 (104399, true))
          { period_start := 0, wallpapers_added := 0, is_paused := false }).2.1 := by
  have hA := budget_run_replicate_insert 2000 100799
    { period_start := 0, wallpapers_added := 0, is_paused := false }
    (by norm_num [RATE_LIMIT_PERIOD_HOURS]) (by norm_num [MAX_WALLPAPERS_PER_PERIOD])
  have hstep := budget_step_reset_insert 104399
    { period_start := 0, wallpapers_added := 2000, is_paused := false }
    (by norm_num [RATE_LIMIT_PERIOD_HOURS])
  have hB := budget_run_replicate_insert 1999 104399
    { period_start := 104399, wallpapers_added := 1, is_paused := false }
    (by norm_num [RATE_LIMIT_PERIOD_HOURS]) (by norm_num [MAX_WALLPAPERS_PER_PERIOD])
  rw [budget_run_append, hA]
  dsimp only
  rw [show (List.replicate 2000 ((104399 : Nat), true)) =
        (104399, true) :: List.replicate 1999 (104399, true) from rfl,
      budget_run_cons, hstep]
  dsimp only
  rw [hB]
  dsimp only
  unfold inserts_in_window
  simp only [List.filter_append, List.length_append, List.singleton_append,
    List.filter_cons]
  rw [length_filter_replicate_pos 2000 100799 _ (by norm_num [RATE_LIMIT_PERIOD_HOURS]),
      length_filter_replicate_pos 1999 104399 _ (by norm_num [RATE_LIMIT_PERIOD_HOURS])]
  norm_num [RATE_LIMIT_PERIOD_HOURS, MAX_WALLPAPERS_PER_PERIOD]

/-- Helper: unfolding equation for segment_counts at a period reset. -/
theorem segment_counts_cons_reset (inserted : Bool) (log : List (Bool × Bool))
    (curr : Nat) :
    segment_counts ((inserted, true) :: log) curr =
      curr :: segment_counts log (if inserted then 1 else 0) := rfl

/-- Helper: unfolding equation for segment_counts inside a live period. -/
theorem segment_counts_cons_live (inserted : Bool) (log : List (Bool × Bool))
    (curr : Nat) :
    segment_counts ((inserted, false) :: log) curr =
      segment_counts log (curr + (if inserted then 1 else 0)) := rfl

/-- Helper: an expired-period attempt with a non-new candidate resets the
counter without inserting. -/
theorem budget_step_reset_skip (now : Nat) (s : RateLimitState)
    (h1 : now - s.period_start ≥ RATE_LIMIT_PERIOD_HOURS * 3600) :
    budget_step now false s =
      ({ period_start := now, wallpapers_added := 0, is_paused := false },
        false, true) := by
  unfold budget_step check_rate_limit
  simp [h1]

/-- Helper: a live-period attempt with exhausted budget is denied. -/
theorem budget_step_deny (now : Nat) (isNew : Bool) (s : RateLimitState)
    (h1 : ¬ now - s.period_start ≥ RATE_LIMIT_PERIOD_HOURS * 3600)
    (h2 : s.wallpapers_added ≥ MAX_WALLPAPERS_PER_PERIOD) :
    budget_step now isNew s = ({ s with is_paused := true }, false, false) := by
  unfold budget_step check_rate_limit
  simp [h1, h2]

/-- Helper: a live-period attempt with a non-new candidate leaves the
state unchanged. -/
theorem budget_step_live_skip (now : Nat) (s : RateLimitState)
    (h1 : ¬ now - s.period_start ≥ RATE_LIMIT_PERIOD_HOURS * 3600)
    (h2 : ¬ s.wallpapers_added ≥ MAX_WALLPAPERS_PER_PERIOD) :
    budget_step now false s = (s, false, false) := by
  unfold budget_step check_rate_limit
  simp [h1, h2]

/-- C2 amended: check_rate_limit gates every insert against the persisted
fixed-period counter, so within each budget period - from one counter
reset to the next - at most MaxAdds inserts happen, and the counter never
exceeds MaxAdds; the bound holds per period window, not per arbitrary
rolling window (the counterexample shows a rolling window holding twice
the budget). -/
theorem budget_period_insert_bound (ts : List (Nat × Bool)) (s : RateLimitState)
    (h : s.wallpapers_added ≤ MAX_WALLPAPERS_PER_PERIOD) :
    (budget_run ts s).1.wallpapers_added ≤ MAX_WALLPAPERS_PER_PERIOD ∧
    ∀ c ∈ segment_counts (budget_run ts s).2.2 s.wallpapers_added,
      c ≤ MAX_WALLPAPERS_PER_PERIOD := by
  induction ts generalizing s with
  | nil =>
      refine ⟨h, fun c hc => ?_⟩
      rw [show (budget_run [] s).2.2 = [] from rfl] at hc
      rw [show segment_counts [] s.wallpapers_added = [s.wallpapers_added] from rfl] at hc
      rw [List.mem_singleton] at hc
      exact hc ▸ h
  | cons e rest ih =>
      obtain ⟨now, isNew⟩ := e
      rw [budget_run_cons]
      by_cases hreset : now - s.period_start ≥ RATE_LIMIT_PERIOD_HOURS * 3600
      · cases isNew with
        | true =>
            rw [budget_step_reset_insert now s hreset]
            dsimp only
            have ih' := ih ⟨now, 1, false⟩ (by norm_num [MAX_WALLPAPERS_PER_PERIOD])
            refine ⟨ih'.1, fun c hc => ?_⟩
            rw [segment_counts_cons_reset] at hc
            rcases List.mem_cons.mp hc with hc | hc
            · exact hc ▸ h
            · exact ih'.2 c hc
        | false =>
            rw [budget_step_reset_skip now s hreset]
            dsimp only
            have ih' := ih ⟨now, 0, false⟩ (by norm_num [MAX_WALLPAPERS_PER_PERIOD])
            refine ⟨ih'.1, fun c hc => ?_⟩
            rw [segment_counts_cons_reset] at hc
            rcases List.mem_cons.mp hc with hc | hc
            · exact hc ▸ h
            · exact ih'.2 c hc
      · by_cases hfull : s.wallpapers_added ≥ MAX_WALLPAPERS_PER_PERIOD
        · rw [budget_step_deny now isNew s hreset hfull]
          dsimp only
          have ih' := ih { s with is_paused := true } h
          refine ⟨ih'.1, fun c hc => ?_⟩
          rw [segment_counts_cons_live] at hc
          exact ih'.2 c hc
        · cases isNew with
          | true =>
              rw [budget_step_insert now s (by omega) (by omega)]
              dsimp only
              have ih' := ih { s with wallpapers_added := s.wallpapers_added + 1 }
                (by simp only [RateLimitState.mk.injEq]; omega)
              refine ⟨ih'.1, fun c hc => ?_⟩
              rw [segment_counts_cons_live] at hc
              exact ih'.2 c hc
          | false =>
              rw [budget_step_live_skip now s hreset hfull]
              dsimp only
              have ih' := ih s h
              refine ⟨ih'.1, fun c hc => ?_⟩
              rw [segment_counts_cons_live] at hc
              exact ih'.2 c hc

/-- Witness for the amended C2 at a concrete one-attempt trace from a
fresh state. -/
theorem budget_period_insert_bound_witness :
    (budget_run [(5, true)]
      { period_start := 0, wallpapers_added := 0, is_paused := false }).1.wallpapers_added ≤
      MAX_WALLPAPERS_PER_PERIOD :=
  (budget_period_insert_bound [(5, true)]
    { period_start := 0, wallpapers_added := 0, is_paused := false }
    (by norm_num [MAX_WALLPAPERS_PER_PERIOD])).1

/-- Helper: filtering with a stronger threshold after a weaker one is the
same as filtering with the stronger one alone. -/
theorem filter_lt_collapse (l : List ℚ) (a b : ℚ) (hab : a ≤ b) :
    (l.filter (fun u => decide (a < u))).filter (fun u => decide (b < u)) =
      l.filter (fun u => decide (b < u)) := by
  rw [List.filter_filter]
  refine List.filter_congr fun u _ => ?_
  by_cases hb : b < u
  · have ha : a < u := lt_of_le_of_lt hab hb
    simp [ha, hb]
  · simp [hb]

/-- Helper: the prune predicate now - t < 60 coincides with the window
predicate now - 60 < t. -/
theorem prune_filter_eq (now : ℚ) (l : List ℚ) :
    l.filter (fun t => decide (now - t < 60)) =
      l.filter (fun u => decide (now - 60 < u)) := by
  refine List.filter_congr fun u _ => ?_
  have : now - u < 60 ↔ now - 60 < u := by constructor <;> intro <;> linarith
  simp [this]

/-- Helper: filtering twice with the same threshold changes nothing. -/
theorem filter_lt_idem (l : List ℚ) (b : ℚ) :
    (l.filter (fun u => decide (b < u))).filter (fun u => decide (b < u)) =
      l.filter (fun u => decide (b < u)) :=
  filter_lt_collapse l b b le_rfl

/-- Helper: under the invariant, the recorded history and the in-memory
list agree on every window threshold at or after the model clock. -/
theorem recent_eq_at (s : LimiterState) (h : LimiterInv s) (x : ℚ)
    (hx : s.clock ≤ x) :
    s.recorded.filter (fun u => decide (x - 60 < u)) =
      s.api_call_times.filter (fun u => decide (x - 60 < u)) := by
  have hc : s.clock - 60 ≤ x - 60 := by linarith
  calc s.recorded.filter (fun u => decide (x - 60 < u))
      = (s.recorded.filter (fun u => decide (s.clock - 60 < u))).filter
          (fun u => decide (x - 60 < u)) := (filter_lt_collapse _ _ _ hc).symm
    _ = (s.api_call_times.filter (fun u => decide (s.clock - 60 < u))).filter
          (fun u => decide (x - 60 < u)) := by rw [h.recent_eq]
    _ = s.api_call_times.filter (fun u => decide (x - 60 < u)) :=
        filter_lt_collapse _ _ _ hc

/-- Helper: the recent recorded count at any threshold at or after the
clock is within the limit. -/
theorem recent_le_at (s : LimiterState) (h : LimiterInv s) (x : ℚ)
    (hx : s.clock ≤ x) :
    (s.recorded.filter (fun u => decide (x - 60 < u))).length ≤
      MAX_REQUESTS_PER_MINUTE := by
  refine le_trans ?_ h.recent_le
  refine (List.monotone_filter_right _ fun u hu => ?_).length_le
  have hxu : x - 60 < u := of_decide_eq_true hu
  have : s.clock - 60 < u := by linarith
  simp [this]

/-- Helper: one acquire step preserves the limiter invariant. -/
theorem limiter_inv_step (gap : ℚ) (sd : Bool) (s : LimiterState)
    (hg : 0 ≤ gap) (hInv : LimiterInv s) :
    LimiterInv (enforce_rate_limit_step gap sd s) := by
  unfold enforce_rate_limit_step
  dsimp only
  have hclock_now : s.clock ≤ s.clock + gap := by linarith
  set now := s.clock + gap with hnow
  have hpruned : (s.api_call_times.filter fun t => decide (now - t < 60)) =
      s.api_call_times.filter (fun u => decide (now - 60 < u)) :=
    prune_filter_eq now s.api_call_times
  have hrecnow : s.recorded.filter (fun u => decide (now - 60 < u)) =
      s.api_call_times.filter (fun u => decide (now - 60 < u)) :=
    recent_eq_at s hInv now hclock_now
  have hcount_now : (s.recorded.filter (fun u => decide (now - 60 < u))).length ≤
      MAX_REQUESTS_PER_MINUTE := recent_le_at s hInv now hclock_now
  by_cases hsd : 0 < limiter_wait_time now
      (s.api_call_times.filter fun t => decide (now - t < 60)) ∧ sd = true
  · rw [if_pos hsd]
    refine ⟨?_, ?_, hInv.window_le⟩
    · dsimp only
      rw [hrecnow, hpruned, filter_lt_idem]
    · dsimp only
      exact hcount_now
  · rw [if_neg hsd]
    -- the recorded timestamp
    set w := limiter_wait_time now
      (s.api_call_times.filter fun t => decide (now - t < 60)) with hw
    have hkey : ∀ ht : s.clock ≤ now + w,
        (s.recorded.filter (fun u => decide (now + w - 60 < u))).length + 1 ≤
          MAX_REQUESTS_PER_MINUTE ∧
        s.recorded.filter (fun u => decide (now + w - 60 < u)) =
          (s.api_call_times.filter (fun t => decide (now - t < 60))).filter
            (fun u => decide (now + w - 60 < u)) := by
      intro ht
      by_cases hfull : MAX_REQUESTS_PER_MINUTE ≤
          (s.api_call_times.filter fun t => decide (now - t < 60)).length
      · -- full window: w = 62 - (now - oldest) and the oldest entry
        -- leaves the window before the record time
        have hlen : 0 < (s.api_call_times.filter fun t => decide (now - t < 60)).length := by
          have : (0:Nat) < MAX_REQUESTS_PER_MINUTE := by norm_num [MAX_REQUESTS_PER_MINUTE]
          omega
        obtain ⟨oldest, holdest⟩ : ∃ a,
            (s.api_call_times.filter fun t => decide (now - t < 60)).head? = some a := by
          cases hl : (s.api_call_times.filter fun t => decide (now - t < 60)) with
          | nil => rw [hl] at hlen; simp at hlen
          | cons x xs => exact ⟨x, rfl⟩
        have hmem : oldest ∈ (s.api_call_times.filter fun t => decide (now - t < 60)) :=
          List.mem_of_mem_head? holdest
        have holdw : now - oldest < 60 :=
          of_decide_eq_true (List.mem_filter.mp hmem).2
        have hwval : w = 60 - (now - oldest) + 2 := by
          rw [hw]
          unfold limiter_wait_time
          rw [if_pos hfull, holdest]
        have ht60 : now + w - 60 = oldest + 2 := by rw [hwval]; ring
        have heq : s.recorded.filter (fun u => decide (now + w - 60 < u)) =
            (s.api_call_times.filter (fun t => decide (now - t < 60))).filter
              (fun u => decide (now + w - 60 < u)) := by
          have h1 : s.recorded.filter (fun u => decide (now + w - 60 < u)) =
              s.api_call_times.filter (fun u => decide (now + w - 60 < u)) :=
            recent_eq_at s hInv (now + w) ht
          have h2 : (s.api_call_times.filter (fun u => decide (now - 60 < u))).filter
              (fun u => decide (now + w - 60 < u)) =
              s.api_call_times.filter (fun u => decide (now + w - 60 < u)) := by
            refine filter_lt_collapse _ _ _ ?_
            rw [ht60]
            linarith
          rw [h1, hpruned, h2]
        refine ⟨?_, heq⟩
        have hlt : ((s.api_call_times.filter (fun t => decide (now - t < 60))).filter
            (fun u => decide (now + w - 60 < u))).length <
            (s.api_call_times.filter fun t => decide (now - t < 60)).length := by
          rw [List.length_filter_lt_length_iff_exists]
          refine ⟨oldest, hmem, ?_⟩
          rw [ht60]
          simp only [decide_eq_true_eq]
          intro hcon
          exact absurd hcon (by linarith)
        have hle40 : (s.api_call_times.filter fun t => decide (now - t < 60)).length ≤
            MAX_REQUESTS_PER_MINUTE := by
          rw [hpruned, ← hrecnow]
          exact hcount_now
        rw [heq]
        omega
      · -- window not full: w = 0 and the pruned list has at most 39 entries
        have hwzero : w = 0 := by
          rw [hw]
          unfold limiter_wait_time
          rw [if_neg hfull]
        have heq : s.recorded.filter (fun u => decide (now + w - 60 < u)) =
            (s.api_call_times.filter (fun t => decide (now - t < 60))).filter
              (fun u => decide (now + w - 60 < u)) := by
          rw [hwzero]
          simp only [add_zero]
          rw [hrecnow, hpruned, filter_lt_idem]
        refine ⟨?_, heq⟩
        rw [heq, hwzero]
        simp only [add_zero]
        rw [hpruned, filter_lt_idem, ← hpruned]
        omega
    have hwnonneg : 0 ≤ w := by
      by_cases hfull : MAX_REQUESTS_PER_MINUTE ≤
          (s.api_call_times.filter fun t => decide (now - t < 60)).length
      · have hlen : 0 < (s.api_call_times.filter fun t => decide (now - t < 60)).length := by
          have : (0:Nat) < MAX_REQUESTS_PER_MINUTE := by norm_num [MAX_REQUESTS_PER_MINUTE]
          omega
        obtain ⟨oldest, holdest⟩ : ∃ a,
            (s.api_call_times.filter fun t => decide (now - t < 60)).head? = some a := by
          cases hl : (s.api_call_times.filter fun t => decide (now - t < 60)) with
          | nil => rw [hl] at hlen; simp at hlen
          | cons x xs => exact ⟨x, rfl⟩
        have hmem : oldest ∈ (s.api_call_times.filter fun t => decide (now - t < 60)) :=
          List.mem_of_mem_head? holdest
        have holdw : now - oldest < 60 :=
          of_decide_eq_true (List.mem_filter.mp hmem).2
        have hwval : w = 60 - (now - oldest) + 2 := by
          rw [hw]
          unfold limiter_wait_time
          rw [if_pos hfull, holdest]
        rw [hwval]
        linarith
      · have hwzero : w = 0 := by
          rw [hw]
          unfold limiter_wait_time
          rw [if_neg hfull]
        rw [hwzero]
    have ht : s.clock ≤ now + w := by linarith
    obtain ⟨hcnt, heq⟩ := hkey ht
    have htpass : (decide (now + w - 60 < now + w)) = true := by
      simp only [decide_eq_true_eq]
      linarith
    refine ⟨?_, ?_, ?_⟩
    · dsimp only
      rw [List.filter_append, List.filter_append, heq]
    · dsimp only
      rw [List.filter_append]
      simp only [List.length_append, List.filter_cons, List.filter_nil, htpass,
        if_true, List.length_cons, List.length_nil]
      omega
    · dsimp only
      intro τ
      unfold calls_in_window
      rw [List.filter_append, List.length_append]
      by_cases hτ : now + w ≤ τ
      · have hold : (s.recorded.filter
            (fun u => decide (τ - 60 < u ∧ u ≤ τ))).length ≤
            (s.recorded.filter (fun u => decide (now + w - 60 < u))).length := by
          refine (List.monotone_filter_right _ fun u hu => ?_).length_le
          have hu' : τ - 60 < u ∧ u ≤ τ := of_decide_eq_true hu
          have : now + w - 60 < u := by linarith [hu'.1]
          simp [this]
        have hnew : (([now + w] : List ℚ).filter
            (fun u => decide (τ - 60 < u ∧ u ≤ τ))).length ≤ 1 := by
          simp [List.filter_cons]
          split_ifs <;> simp
        omega
      · have hnew : (([now + w] : List ℚ).filter
            (fun u => decide (τ - 60 < u ∧ u ≤ τ))).length = 0 := by
          simp only [List.filter_cons, List.filter_nil]
          have : ¬ (τ - 60 < now + w ∧ now + w ≤ τ) := by
            intro hcon
            exact hτ hcon.2
          simp [this]
        rw [hnew]
        have := hInv.window_le τ
        unfold calls_in_window at this
        omega

/-- Helper: the invariant holds initially. -/
theorem limiter_inv_init : LimiterInv limiter_init := by
  refine ⟨rfl, by norm_num [limiter_init, MAX_REQUESTS_PER_MINUTE], fun τ => ?_⟩
  simp [calls_in_window, limiter_init, MAX_REQUESTS_PER_MINUTE]

/-- Helper: the invariant is preserved along any run with non-negative
inter-call gaps. -/
theorem limiter_run_inv (events : List (ℚ × Bool)) (s : LimiterState)
    (hg : ∀ e ∈ events, 0 ≤ e.1) (h : LimiterInv s) :
    LimiterInv (limiter_run events s) := by
  induction events generalizing s with
  | nil => exact h
  | cons e rest ih =>
      obtain ⟨gap, sd⟩ := e
      exact ih (enforce_rate_limit_step gap sd s)
        (fun e' he' => hg e' (List.mem_cons_of_mem _ he'))
        (limiter_inv_step gap sd s (hg (gap, sd) (List.mem_cons_self _ _)) h)

/-- C7: in the sequential model of enforce_rate_limit, for every run with
non-negative gaps between consecutive calls, every rolling 60-second
window contains at most MAX_REQUESTS_PER_MINUTE = 40 recorded API calls;
when the pruned window is already full, a call that observes shutdown
during its wait returns without recording; and every completing call
records exactly the timestamp now + wait, i.e. only after the computed
wait has elapsed. -/
theorem rate_limiter_rolling_window_bound (events : List (ℚ × Bool))
    (hg : ∀ e ∈ events, 0 ≤ e.1) :
    (∀ τ : ℚ, calls_in_window τ (limiter_run events limiter_init).recorded ≤
      MAX_REQUESTS_PER_MINUTE) ∧
    (∀ (gap : ℚ) (s : LimiterState),
      MAX_REQUESTS_PER_MINUTE ≤
        (s.api_call_times.filter fun t => decide (s.clock + gap - t < 60)).length →
      (enforce_rate_limit_step gap true s).recorded = s.recorded) ∧
    (∀ (gap : ℚ) (sd : Bool) (s : LimiterState),
      ¬ (0 < limiter_wait_time (s.clock + gap)
            (s.api_call_times.filter fun t => decide (s.clock + gap - t < 60)) ∧
          sd = true) →
      (enforce_rate_limit_step gap sd s).recorded =
        s.recorded ++ [s.clock + gap +
          limiter_wait_time (s.clock + gap)
            (s.api_call_times.filter fun t => decide (s.clock + gap - t < 60))]) := by
  refine ⟨(limiter_run_inv events limiter_init hg limiter_inv_init).window_le, ?_, ?_⟩
  · intro gap s hfull
    have hlen : 0 < (s.api_call_times.filter
        fun t => decide (s.clock + gap - t < 60)).length := by
      have : (0:Nat) < MAX_REQUESTS_PER_MINUTE := by norm_num [MAX_REQUESTS_PER_MINUTE]
      omega
    obtain ⟨oldest, holdest⟩ : ∃ a,
        (s.api_call_times.filter fun t => decide (s.clock + gap - t < 60)).head? =
          some a := by
      cases hl : (s.api_call_times.filter fun t => decide (s.clock + gap - t < 60)) with
      | nil => rw [hl] at hlen; simp at hlen
      | cons x xs => exact ⟨x, rfl⟩
    have hmem : oldest ∈
        (s.api_call_times.filter fun t => decide (s.clock + gap - t < 60)) :=
      List.mem_of_mem_head? holdest
    have holdw : s.clock + gap - oldest < 60 :=
      of_decide_eq_true (List.mem_filter.mp hmem).2
    have hwpos : 0 < limiter_wait_time (s.clock + gap)
        (s.api_call_times.filter fun t => decide (s.clock + gap - t < 60)) := by
      unfold limiter_wait_time
      rw [if_pos hfull, holdest]
      dsimp only
      linarith
    unfold enforce_rate_limit_step
    rw [if_pos ⟨hwpos, rfl⟩]
  · intro gap sd s hns
    unfold enforce_rate_limit_step
    rw [if_neg hns]

/-- Witness for C7 at a concrete two-call run and window endpoint. -/
theorem rate_limiter_rolling_window_bound_witness :
    calls_in_window 30
      (limiter_run [((1 : ℚ), false), ((2 : ℚ), false)] limiter_init).recorded ≤
      MAX_REQUESTS_PER_MINUTE :=
  (rate_limiter_rolling_window_bound [((1 : ℚ), false), ((2 : ℚ), false)]
    (by decide)).1 30

end WallhavenBot
